import Mathlib

/-!
Verification of the geo-grid place crawler (export_google_places_plateau.py,
export_google_places_1000_per_city.py, export_google_places_to_sqlite.py).

The Python scripts are embedded shallowly:
* network traffic is scripted by a stream net : Nat -> NetOutcome consumed
  one request at a time (an index into the stream replaces the real socket);
* random.uniform(0,1) jitter is a parameter jitter : Nat -> Rat;
* floats are modelled by Rat; math.cos(math.radians lat) is a parameter
  coslat : Rat -> Rat because it is transcendental (every theorem that needs
  it only assumes the positivity that holds for real latitudes);
* the SQLite table is a list of rows, with ON CONFLICT upsert semantics and
  the transaction discipline of the sqlite3 connection context manager made
  explicit.
-/

/-- One place object of a Google response, field for field as the scripts read
it with p.get(...). raw_json is modelled by keeping the place itself. -/
structure Loc where
  lat : Option ℚ
  lng : Option ℚ
deriving DecidableEq, Repr

structure Place where
  place_id : Option String
  name : Option String
  vicinity : Option String
  formatted_address : Option String
  geometry_location : Option Loc
  rating : Option ℚ
  user_ratings_total : Option ℤ
  price_level : Option ℤ
  business_status : Option String
  types : List String
deriving DecidableEq, Repr

/-- A decoded Google Nearby Search response body. -/
structure GResponse where
  status : String
  results : List Place
  next_page_token : Option String
deriving DecidableEq, Repr

/-- Outcome of one requests.get call: a decoded response, or a
requests.exceptions exception (timeout or connection failure). -/
inductive NetOutcome where
  | ok (resp : GResponse)
  | netErr
deriving DecidableEq, Repr

-- ================== safe_get (export_google_places_plateau.py) ==================

/-- Config constants of export_google_places_plateau.py. -/
def WINDOW : ℕ := 50

def MIN_NEW_AVG : ℚ := 1/2

def STABLE_WINDOWS : ℕ := 5

def MIN_POINTS_BEFORE_PLATEAU : ℕ := 80

def max_tries : ℕ := 6

/-- Sleep computed in the except-branches of safe_get:
min(2 ** i, 30) + random.uniform(0, 1). -/
def backoff_sleep (i : ℕ) (jitter : ℕ → ℚ) : ℚ := min ((2:ℚ) ^ i) 30 + jitter i

/-- The for-loop body of safe_get: the list argument carries the remaining
attempt numbers of range(max_tries); idx is the position in the scripted
network stream. Returns the result together with the sleeps performed. -/
def safe_get_go (net : ℕ → NetOutcome) (jitter : ℕ → ℚ) :
    List ℕ → ℕ → Except Unit (GResponse × ℕ) × List ℚ
  | [], _ => (.error (), [])
  | i :: rest, idx =>
    match net idx with
    | .ok r => (.ok (r, idx + 1), [])
    | .netErr =>
      let p := safe_get_go net jitter rest (idx + 1)
      (p.1, backoff_sleep i jitter :: p.2)

/-- safe_get: retry requests.get up to max_tries times; raise RuntimeError
(modelled by Except.error) after repeated network errors. -/
def safe_get (net : ℕ → NetOutcome) (jitter : ℕ → ℚ) (idx : ℕ) :
    Except Unit (GResponse × ℕ) :=
  (safe_get_go net jitter (List.range max_tries) idx).1

/-- The sleeps performed by a safe_get call, in order. -/
def safe_get_sleeps (net : ℕ → NetOutcome) (jitter : ℕ → ℚ) (idx : ℕ) : List ℚ :=
  (safe_get_go net jitter (List.range max_tries) idx).2

-- ================== fetch_nearby (export_google_places_plateau.py) ==================

/-- The paging loop of fetch_nearby (plateau script): for _ in range(3), with
the INVALID_REQUEST retry of a fresh page token, the UNKNOWN_ERROR retry, and
the other-error branch that logs and returns an empty list. -/
def fetch_loop (net : ℕ → NetOutcome) (jitter : ℕ → ℚ) :
    ℕ → Option String → List Place → ℕ → Except Unit (List Place × ℕ)
  | 0, _, acc, idx => .ok (acc, idx)
  | fuel+1, tok, acc, idx =>
    match safe_get net jitter idx with
    | .error e => .error e
    | .ok (d0, i0) =>
      match (if d0.status = "INVALID_REQUEST" ∧ tok.isSome then
               safe_get net jitter i0
             else .ok (d0, i0)) with
      | .error e => .error e
      | .ok (d, i1) =>
        if d.status = "OK" then
          match d.next_page_token with
          | none => .ok (acc ++ d.results, i1)
          | some t => fetch_loop net jitter fuel (some t) (acc ++ d.results) i1
        else if d.status = "ZERO_RESULTS" then .ok (acc, i1)
        else if d.status = "UNKNOWN_ERROR" then
          match safe_get net jitter i1 with
          | .error e => .error e
          | .ok (d2, i2) =>
            if d2.status = "OK" then
              match d2.next_page_token with
              | none => .ok (acc ++ d2.results, i2)
              | some t => fetch_loop net jitter fuel (some t) (acc ++ d2.results) i2
            else if d2.status = "ZERO_RESULTS" then .ok (acc, i2)
            else .ok ([], i2)
        else .ok ([], i1)

/-- fetch_nearby of the plateau script: three pages at most, starting with no
page token and an empty accumulator. -/
def fetch_nearby (net : ℕ → NetOutcome) (jitter : ℕ → ℚ) (idx : ℕ) :
    Except Unit (List Place × ℕ) :=
  fetch_loop net jitter 3 none [] idx

-- ================== plateau detector (main of the plateau script) ==================

/-- deque(maxlen=w).append: keep the last w elements. -/
def pushWindow (w : ℕ) (xs : List ℕ) (x : ℕ) : List ℕ :=
  let ys := xs ++ [x]
  if w < ys.length then ys.drop (ys.length - w) else ys

/-- avg_new = sum(recent) / len(recent). -/
def avg_new (xs : List ℕ) : ℚ := (xs.sum : ℚ) / xs.length

/-- The mutable locals of the per-city loop that drive the plateau decision. -/
structure DetState where
  recent : List ℕ
  stable_hits : ℕ
  points_done : ℕ
deriving DecidableEq, Repr

def detInit : DetState := ⟨[], 0, 0⟩

/-- One iteration of the plateau bookkeeping in main: increment points_done,
reset window and counter when the warm-up boundary is reached, append the
new-record count, and evaluate the stop condition on a full window. The Bool
is the break decision. -/
def detStep (st : DetState) (new_count : ℕ) : DetState × Bool :=
  let points_done := st.points_done + 1
  let recent0 := if points_done = MIN_POINTS_BEFORE_PLATEAU then [] else st.recent
  let stable0 := if points_done = MIN_POINTS_BEFORE_PLATEAU then 0 else st.stable_hits
  let recent := pushWindow WINDOW recent0 new_count
  if recent.length = WINDOW then
    if points_done < MIN_POINTS_BEFORE_PLATEAU then
      (⟨recent, 0, points_done⟩, false)
    else
      let stable := if avg_new recent < MIN_NEW_AVG then stable0 + 1 else 0
      (⟨recent, stable, points_done⟩, decide (STABLE_WINDOWS ≤ stable))
  else
    (⟨recent, stable0, points_done⟩, false)

/-- Feed a sequence of per-point new-record counts to the detector, stopping
at the first break signal; the Bool reports whether a break happened. -/
def detRun : DetState → List ℕ → DetState × Bool
  | st, [] => (st, false)
  | st, x :: xs =>
    let p := detStep st x
    if p.2 then (p.1, true) else detRun p.1 xs

-- ================== store (SQLite table restaurants) ==================

/-- Mutable columns of a restaurants row, built from one place object.
raw models the raw_json serialization of the place; types the serialized
types array. -/
structure RowData where
  name : Option String
  address : Option String
  lat : Option ℚ
  lng : Option ℚ
  rating : Option ℚ
  user_ratings_total : Option ℤ
  price_level : Option ℤ
  business_status : Option String
  types : List String
  raw : Place
deriving DecidableEq, Repr

/-- One row of the restaurants table. fetched_at is an abstract timestamp. -/
structure Row where
  city : String
  place_id : Option String
  data : RowData
  fetched_at : ℕ
deriving DecidableEq, Repr

/-- Python: a or b for optional strings, where None and the empty string are
falsy. -/
def strOr (a b : Option String) : Option String :=
  match a with
  | some s => if s = "" then b else some s
  | none => b

/-- p.get("geometry", \x7b\x7d).get("location", \x7b\x7d) or \x7b\x7d. -/
def locOf (p : Place) : Loc := p.geometry_location.getD ⟨none, none⟩

/-- The tuple built per place in insert_places of the plateau script
(address is vicinity or formatted_address). -/
def rowDataOf (p : Place) : RowData :=
  ⟨p.name, strOr p.vicinity p.formatted_address, (locOf p).lat, (locOf p).lng,
   p.rating, p.user_ratings_total, p.price_level, p.business_status, p.types, p⟩

/-- The tuple built per place in upsert_restaurants of the text-search script
(address is formatted_address or vicinity). -/
def rowDataOfTS (p : Place) : RowData :=
  ⟨p.name, strOr p.formatted_address p.vicinity, (locOf p).lat, (locOf p).lng,
   p.rating, p.user_ratings_total, p.price_level, p.business_status, p.types, p⟩

def mkRow (city : String) (p : Place) (now : ℕ) : Row :=
  ⟨city, p.place_id, rowDataOf p, now⟩

def mkRowTS (city : String) (p : Place) (now : ℕ) : Row :=
  ⟨city, p.place_id, rowDataOfTS p, now⟩

/-- An existing row a conflicts with an incoming row r on the primary key
(city, place_id); as in SQLite, a NULL place_id never conflicts. -/
def sameKey (a r : Row) : Prop :=
  a.city = r.city ∧ a.place_id = r.place_id ∧ a.place_id ≠ none

instance (a r : Row) : Decidable (sameKey a r) := by
  unfold sameKey; infer_instance

/-- ON CONFLICT(city, place_id) DO UPDATE SET ...: overwrite the mutable
columns and refresh fetched_at of a conflicting row. -/
def updRow (r a : Row) : Row :=
  if sameKey a r then ⟨a.city, a.place_id, r.data, r.fetched_at⟩ else a

/-- Execute the upsert statement for one row: update the conflicting row if
the key exists, insert otherwise. The primary key keeps at most one match in
the real table; on arbitrary lists the model updates every matching row,
which coincides on every store the scripts can build. -/
def upsertRow (s : List Row) (r : Row) : List Row :=
  if s.any fun a => decide (sameKey a r) then s.map (updRow r) else s ++ [r]

/-- executemany(INSERT_SQL, rows) of insert_places, as performed inside the
transaction, with an oracle failAt naming the row index whose execution
raises (none: no failure). -/
def execMany (failAt : Option ℕ) : List Row → List Row → ℕ → Except Unit (List Row)
  | s, [], _ => .ok s
  | s, r :: rest, i =>
    if failAt = some i then .error ()
    else execMany failAt (upsertRow s r) rest (i + 1)

/-- insert_places of the plateau script. The body runs inside `with conn`,
the sqlite3 transaction context manager: on success the batch is committed,
on an exception the transaction is rolled back (the store reverts to its
prior state) and the exception propagates; the error value carries the
rolled-back store. -/
def insert_places_tx (failAt : Option ℕ) (s : List Row) (city : String)
    (places : List Place) (now : ℕ) : Except (List Row) (List Row) :=
  if places.isEmpty then .ok s
  else
    match execMany failAt s (places.map fun p => mkRow city p now) 0 with
    | .ok sNext => .ok sNext
    | .error _ => .error s

/-- insert_places on the failure-free path (what the crawl loop performs). -/
def insert_places (s : List Row) (city : String) (places : List Place) (now : ℕ) :
    List Row :=
  if places.isEmpty then s
  else List.foldl upsertRow s (places.map fun p => mkRow city p now)

/-- upsert_places of the 1000-per-city script: same statement, executemany
then commit. -/
def upsert_places (s : List Row) (city : String) (places : List Place) (now : ℕ) :
    List Row :=
  List.foldl upsertRow s (places.map fun p => mkRow city p now)

/-- upsert_restaurants of the text-search script (address column order
differs). -/
def upsert_restaurants (s : List Row) (city : String) (places : List Place) (now : ℕ) :
    List Row :=
  List.foldl upsertRow s (places.map fun p => mkRowTS city p now)

/-- upsert_restaurants with the failure oracle. There is no `with conn`
here: cur.executemany implicitly opens a transaction, and the pending rows
become durable only at the conn.commit() that ends the function. If a row's
execution raises, that commit is never reached; the exception propagates out
of main uncaught, and the still-open transaction is rolled back when the
connection closes, so the durable store is the one from before the call. -/
def upsert_restaurants_tx (failAt : Option ℕ) (s : List Row) (city : String)
    (places : List Place) (now : ℕ) : Except (List Row) (List Row) :=
  match execMany failAt s (places.map fun p => mkRowTS city p now) 0 with
  | .ok pending => .ok pending
  | .error _ => .error s

/-- The time-independent observable of a row. -/
def stripTime (r : Row) : String × Option String × RowData := (r.city, r.place_id, r.data)

/-- fetched_at of the first row keyed (city, place_id). -/
def lookupFetched (s : List Row) (city pid : String) : Option ℕ :=
  (s.find? fun a => decide (a.city = city ∧ a.place_id = some pid)).map Row.fetched_at

/-- SELECT COUNT(*) FROM restaurants WHERE city=?. -/
def count_city (s : List Row) (city : String) : ℕ :=
  (s.filter fun a => a.city = city).length

/-- SELECT place_id FROM restaurants WHERE city=? collected into the seen set
(load_existing_ids). -/
def load_existing_ids (s : List Row) (city : String) : Finset String :=
  ((s.filter fun a => a.city = city).filterMap Row.place_id).toFinset

-- ================== dedup loops ==================

/-- The new-places filter of the plateau main loop:
pid = p.get("place_id"); if pid and pid not in seen: seen.add(pid);
new_places.append(p). -/
def dedupLoop : Finset String → List Place → List Place × Finset String
  | seen, [] => ([], seen)
  | seen, p :: rest =>
    match p.place_id with
    | none => dedupLoop seen rest
    | some pid =>
      if pid = "" ∨ pid ∈ seen then dedupLoop seen rest
      else
        let q := dedupLoop (insert pid seen) rest
        (p :: q.1, q.2)

/-- The new-places filter of the 1000-per-city main loop, which additionally
breaks out as soon as the seen set reaches the target. -/
def dedup1000 (target : ℕ) : Finset String → List Place → List Place × Finset String
  | seen, [] => ([], seen)
  | seen, p :: rest =>
    match p.place_id with
    | none => dedup1000 target seen rest
    | some pid =>
      if pid = "" ∨ pid ∈ seen then dedup1000 target seen rest
      else
        let seenNext := insert pid seen
        if target ≤ seenNext.card then ([p], seenNext)
        else
          let q := dedup1000 target seenNext rest
          (p :: q.1, q.2)

-- ================== crawl loop (main of the plateau script) ==================

/-- Per-city mutable state of the plateau main loop. idx is the position in
the scripted network stream. -/
structure RunState where
  seen : Finset String
  det : DetState
  store : List Row
  idx : ℕ
deriving DecidableEq

def initRun : RunState := ⟨∅, detInit, [], 0⟩

/-- One grid-point iteration of the plateau main loop: fetch, dedup, write
the new places, feed their count to the plateau bookkeeping. The Bool is the
plateau break. A RuntimeError propagating out of safe_get is not caught. -/
def processPoint (net : ℕ → NetOutcome) (jitter : ℕ → ℚ) (city : String) (now : ℕ)
    (st : RunState) : Except Unit (RunState × Bool) :=
  match fetch_nearby net jitter st.idx with
  | .error e => .error e
  | .ok (results, idxNext) =>
    let d := dedupLoop st.seen results
    let store := if d.1.isEmpty then st.store else insert_places st.store city d.1 now
    let det := detStep st.det d.1.length
    .ok (⟨d.2, det.1, store, idxNext⟩, det.2)

/-- The per-city grid loop of the plateau script: process points until the
plateau break or grid exhaustion; an uncaught exception aborts. -/
def crawl_city (net : ℕ → NetOutcome) (jitter : ℕ → ℚ) (city : String) (now : ℕ) :
    List (ℚ × ℚ) → RunState → Except Unit RunState
  | [], st => .ok st
  | _ :: pts, st =>
    match processPoint net jitter city now st with
    | .error e => .error e
    | .ok (stNext, stop) =>
      if stop then .ok stNext else crawl_city net jitter city now pts stNext

-- ================== export_google_places_1000_per_city.py ==================

/-- Failure classes of fetch_nearby in the 1000-per-city script: a
requests exception from requests.get (propagates out of main), or the
RuntimeError raised on a bad status (caught in main). Both carry the resume
position of the network stream. -/
inductive Err1000 where
  | net (idx : ℕ)
  | api (idx : ℕ)
deriving DecidableEq, Repr

/-- The paging loop of fetch_nearby in the 1000-per-city script: plain
requests.get (no retry on network errors), the INVALID_REQUEST retry of a
fresh page token, and raise RuntimeError on any status other than OK or
ZERO_RESULTS. -/
def fetch1000_loop (net : ℕ → NetOutcome) :
    ℕ → Option String → List Place → ℕ → Except Err1000 (List Place × ℕ)
  | 0, _, acc, idx => .ok (acc, idx)
  | fuel+1, tok, acc, idx =>
    match net idx with
    | .netErr => .error (.net (idx + 1))
    | .ok d0 =>
      match (if d0.status = "INVALID_REQUEST" ∧ tok.isSome then
               match net (idx + 1) with
               | .netErr => Except.error (Err1000.net (idx + 2))
               | .ok d1 => Except.ok (d1, idx + 2)
             else Except.ok (d0, idx + 1)) with
      | .error e => .error e
      | .ok (d, i1) =>
        if d.status = "OK" ∨ d.status = "ZERO_RESULTS" then
          match d.next_page_token with
          | none => .ok (acc ++ d.results, i1)
          | some t => fetch1000_loop net fuel (some t) (acc ++ d.results) i1
        else .error (.api i1)

/-- fetch_nearby of the 1000-per-city script with max_pages=3. -/
def fetch_nearby_1000 (net : ℕ → NetOutcome) (idx : ℕ) :
    Except Err1000 (List Place × ℕ) :=
  fetch1000_loop net 3 none [] idx

def TARGET_PER_CITY : ℕ := 1000

/-- Per-city state of the 1000-per-city main loop; visited counts the grid
points that passed the target check (instrumentation of the loop body). -/
structure Run1000State where
  seen : Finset String
  store : List Row
  idx : ℕ
  visited : ℕ
deriving DecidableEq

def initRun1000 : Run1000State := ⟨∅, [], 0, 0⟩

/-- The per-city grid loop of the 1000-per-city script: break as soon as the
seen set has reached the target; catch the RuntimeError of a bad status and
continue with the next point; let a requests exception propagate (aborting
the run); otherwise dedup (with the in-batch target break), upsert and
continue. -/
def crawl1000 (net : ℕ → NetOutcome) (city : String) (now : ℕ) (target : ℕ) :
    List (ℚ × ℚ) → Run1000State → Except Unit Run1000State
  | [], st => .ok st
  | _ :: pts, st =>
    if target ≤ st.seen.card then .ok st
    else
      match fetch_nearby_1000 net st.idx with
      | .error (.net _) => .error ()
      | .error (.api idxNext) =>
        crawl1000 net city now target pts ⟨st.seen, st.store, idxNext, st.visited + 1⟩
      | .ok (results, idxNext) =>
        let d := dedup1000 target st.seen results
        let store := if d.1.isEmpty then st.store else upsert_places st.store city d.1 now
        crawl1000 net city now target pts ⟨d.2, store, idxNext, st.visited + 1⟩

/-- The post-run warning of the 1000-per-city script: emitted exactly when
the final row count is below the target. -/
def warnsBelowTarget (s : List Row) (city : String) (target : ℕ) : Bool :=
  decide (count_city s city < target)

-- ================== grid generation ==================

def meters_to_lat (m : ℚ) : ℚ := m / 111320

/-- meters_to_lng with math.cos(math.radians lat) supplied as coslat, with
the 1e-9 guard against division by zero. -/
def meters_to_lng (m : ℚ) (coslat : ℚ) : ℚ := m / (111320 * coslat + 1 / 1000000000)

structure BBox where
  lat_min : ℚ
  lat_max : ℚ
  lng_min : ℚ
  lng_max : ℚ
deriving DecidableEq, Repr

/-- Number of iterations of the accumulate-while-le loop
x = lo; while x <= hi: yield x; x += step
when the step is positive (zero otherwise; the Python loop does not
terminate for a non-positive step, and every theorem below assumes
positivity). -/
def ladderLen (lo hi step : ℚ) : ℕ :=
  if lo ≤ hi ∧ 0 < step then (⌊(hi - lo) / step⌋).toNat + 1 else 0

/-- The values yielded by the accumulate-while-le loop. -/
def ladder (lo hi step : ℚ) : List ℚ :=
  (List.range (ladderLen lo hi step)).map fun k : ℕ => lo + (k : ℚ) * step

/-- grid_points of the plateau script: rows over latitude with the constant
latitude step, and per row the longitudes with that row's longitude step. -/
def grid_points (bbox : BBox) (step_m : ℚ) (coslat : ℚ → ℚ) : List (ℚ × ℚ) :=
  (ladder bbox.lat_min bbox.lat_max (meters_to_lat step_m)).flatMap fun lat =>
    (ladder bbox.lng_min bbox.lng_max (meters_to_lng step_m (coslat lat))).map
      fun lng => (lat, lng)

/-- generate_grid_points of the 1000-per-city script: identical iteration
with the latitude step hoisted out of the loop. -/
def generate_grid_points (bbox : BBox) (step_m : ℚ) (coslat : ℚ → ℚ) : List (ℚ × ℚ) :=
  let lat_step := meters_to_lat step_m
  (ladder bbox.lat_min bbox.lat_max lat_step).flatMap fun lat =>
    (ladder bbox.lng_min bbox.lng_max (meters_to_lng step_m (coslat lat))).map
      fun lng => (lat, lng)

-- ================== statement helpers ==================

/-- Python truthiness of p.get("place_id"): present and non-empty. -/
def hasPid (p : Place) : Bool :=
  match p.place_id with
  | none => false
  | some s => if s = "" then false else true

/-- The truthy place_ids of a batch, in order. -/
def validPids (batch : List Place) : List String :=
  batch.filterMap fun p =>
    match p.place_id with
    | none => none
    | some s => if s = "" then none else some s

/-- Length of the detector window after k points, as maintained by the main
loop (reset when the warm-up boundary is crossed at point 80). -/
def windowLenF (k : ℕ) : ℕ :=
  if k < MIN_POINTS_BEFORE_PLATEAU then min k WINDOW
  else min (k - (MIN_POINTS_BEFORE_PLATEAU - 1)) WINDOW

/-- Observable outcome of a plateau-script city crawl: points done and seen
count on success, none on an uncaught exception. -/
def runSummary (r : Except Unit RunState) : Option (ℕ × ℕ) :=
  match r with
  | .ok st => some (st.det.points_done, st.seen.card)
  | .error _ => none

/-- Observable outcome of a 1000-per-city crawl: points visited and seen
count on success, none on an uncaught exception. -/
def run1000Summary (r : Except Unit Run1000State) : Option (ℕ × ℕ) :=
  match r with
  | .ok st => some (st.visited, st.seen.card)
  | .error _ => none

-- ================== concrete scenario inputs ==================

def noJitter : ℕ → ℚ := fun _ => 0

/-- A minimal place object with the given place_id. -/
def placeId (s : String) : Place :=
  ⟨some s, none, none, none, none, none, none, none, none, []⟩

def respDenied : GResponse := ⟨"REQUEST_DENIED", [], none⟩

def respOkFoo : GResponse := ⟨"OK", [placeId "foo"], none⟩

/-- The provider answers the first request with a fatal status and every
later one with a normal single-result page. -/
def netFatalThenOk : ℕ → NetOutcome := fun i =>
  if i = 0 then .ok respDenied else .ok respOkFoo

/-- Every request raises a network exception. -/
def netAllFail : ℕ → NetOutcome := fun _ => .netErr

/-- The first two requests raise a network exception, then a normal page. -/
def netFailTwice : ℕ → NetOutcome := fun i =>
  if i < 2 then .netErr else .ok respOkFoo

def respABC : GResponse := ⟨"OK", [placeId "a", placeId "b", placeId "c"], none⟩

/-- Every request yields the same three distinct places. -/
def netABC : ℕ → NetOutcome := fun _ => .ok respABC

/-- A fully populated place used to exercise the upsert. -/
def placeX : Place :=
  ⟨some "x", some "Cafe", some "1 Main St", none, some ⟨some 1, some 2⟩,
   some 4, some 10, some 2, some "OPERATIONAL", ["restaurant"]⟩

def bboxTest : BBox := ⟨0, 1/100, 0, 1/100⟩

def cosOne : ℚ → ℚ := fun _ => 1

-- ================== theorems ==================

section Claims

-- ---------- C8: batch atomicity ----------

lemma execMany_ok (failAt : Option ℕ) :
    ∀ (rows : List Row) (s : List Row) (i : ℕ) (sOut : List Row),
      execMany failAt s rows i = .ok sOut → sOut = rows.foldl upsertRow s := by
  intro rows
  induction rows with
  | nil =>
    intro s i sOut h
    simp only [execMany, Except.ok.injEq] at h
    simp [h.symm]
  | cons r rest ih =>
    intro s i sOut h
    by_cases hf : failAt = some i
    · simp [execMany, hf] at h
    · simp only [execMany, if_neg hf] at h
      simpa [List.foldl_cons] using ih (upsertRow s r) (i + 1) sOut h

/-- C8: a batch upsert is all-or-nothing, in both cited implementations.
Whatever row (if any) the failure oracle makes raise: insert_places (plateau
script, executemany inside the `with conn` transaction context) either
commits the store with every row of the batch applied, or rolls back to
exactly the store from before the call; and upsert_restaurants (text-search
script, bare executemany followed by conn.commit()) either reaches the
commit with every row of the batch applied, or the commit is never reached
and the uncommitted implicit transaction leaves the durable store exactly as
before the call — in neither implementation is a batch ever partially
persisted. -/
theorem batch_upsert_all_or_nothing (failAt : Option ℕ) (s : List Row)
    (city : String) (places : List Place) (now : ℕ) :
    (insert_places_tx failAt s city places now
        = .ok ((places.map fun p => mkRow city p now).foldl upsertRow s) ∨
     insert_places_tx failAt s city places now = .error s) ∧
    (upsert_restaurants_tx failAt s city places now
        = .ok ((places.map fun p => mkRowTS city p now).foldl upsertRow s) ∨
     upsert_restaurants_tx failAt s city places now = .error s) := by
  constructor
  · unfold insert_places_tx
    by_cases hempty : places.isEmpty
    · left
      rw [if_pos hempty]
      rw [List.isEmpty_iff.mp hempty]
      rfl
    · rw [if_neg hempty]
      rcases hrun : execMany failAt s (places.map fun p => mkRow city p now) 0 with sBad | sOut
      · right; rfl
      · left
        rw [execMany_ok failAt _ s 0 sOut hrun]
  · unfold upsert_restaurants_tx
    rcases hrun : execMany failAt s (places.map fun p => mkRowTS city p now) 0 with sBad | sOut
    · right; rfl
    · left
      rw [execMany_ok failAt _ s 0 sOut hrun]

-- ---------- dedup lemmas (C5, C10) ----------

lemma dedupLoop_length_card (batch : List Place) :
    ∀ seen : Finset String,
      (dedupLoop seen batch).1.length = ((validPids batch).toFinset \ seen).card := by
  induction batch with
  | nil => intro seen; simp [dedupLoop, validPids]
  | cons p rest ih =>
    intro seen
    rcases hpid : p.place_id with _ | pid
    · simp only [dedupLoop, hpid]
      rw [ih seen]
      simp [validPids, List.filterMap_cons, hpid]
    · by_cases h1 : pid = ""
      · simp only [dedupLoop, hpid]
        rw [if_pos (Or.inl h1), ih seen]
        simp [validPids, List.filterMap_cons, hpid, h1]
      · have hv : validPids (p :: rest) = pid :: validPids rest := by
          simp [validPids, List.filterMap_cons, hpid, h1]
        by_cases h2 : pid ∈ seen
        · simp only [dedupLoop, hpid]
          rw [if_pos (Or.inr h2), ih seen, hv]
          rw [List.toFinset_cons, Finset.insert_sdiff_of_mem _ h2]
        · simp only [dedupLoop, hpid]
          rw [if_neg (not_or.mpr ⟨h1, h2⟩)]
          simp only [List.length_cons]
          rw [ih (insert pid seen), hv, List.toFinset_cons]
          rw [Finset.sdiff_insert]
          by_cases h3 : pid ∈ (validPids rest).toFinset \ seen
          · rw [Finset.card_erase_add_one h3,
              Finset.insert_sdiff_of_not_mem _ h2,
              Finset.insert_eq_self.mpr h3]
          · rw [Finset.erase_eq_of_not_mem h3,
              Finset.insert_sdiff_of_not_mem _ h2,
              Finset.card_insert_of_not_mem h3]

lemma dedupLoop_seen (batch : List Place) :
    ∀ seen : Finset String,
      (dedupLoop seen batch).2 = seen ∪ (validPids batch).toFinset := by
  induction batch with
  | nil => intro seen; simp [dedupLoop, validPids]
  | cons p rest ih =>
    intro seen
    rcases hpid : p.place_id with _ | pid
    · simp only [dedupLoop, hpid]
      rw [ih seen]
      simp [validPids, List.filterMap_cons, hpid]
    · by_cases h1 : pid = ""
      · simp only [dedupLoop, hpid]
        rw [if_pos (Or.inl h1), ih seen]
        simp [validPids, List.filterMap_cons, hpid, h1]
      · have hv : validPids (p :: rest) = pid :: validPids rest := by
          simp [validPids, List.filterMap_cons, hpid, h1]
        rw [hv, List.toFinset_cons, Finset.union_insert]
        by_cases h2 : pid ∈ seen
        · simp only [dedupLoop, hpid]
          rw [if_pos (Or.inr h2), ih seen,
            Finset.insert_eq_self.mpr (Finset.mem_union_left _ h2)]
        · simp only [dedupLoop, hpid]
          rw [if_neg (not_or.mpr ⟨h1, h2⟩)]
          rw [ih (insert pid seen), Finset.insert_union]

lemma dedupLoop_mem (batch : List Place) :
    ∀ (seen : Finset String) (p : Place), p ∈ (dedupLoop seen batch).1 →
      ∃ pid, p.place_id = some pid ∧ pid ≠ "" ∧ pid ∉ seen := by
  induction batch with
  | nil => intro seen p hp; simp [dedupLoop] at hp
  | cons q rest ih =>
    intro seen p hp
    rcases hpid : q.place_id with _ | pid
    · simp only [dedupLoop, hpid] at hp
      exact ih seen p hp
    · by_cases h1 : pid = ""
      · simp only [dedupLoop, hpid] at hp
        rw [if_pos (Or.inl h1)] at hp
        exact ih seen p hp
      · by_cases h2 : pid ∈ seen
        · simp only [dedupLoop, hpid] at hp
          rw [if_pos (Or.inr h2)] at hp
          exact ih seen p hp
        · simp only [dedupLoop, hpid] at hp
          rw [if_neg (not_or.mpr ⟨h1, h2⟩)] at hp
          rcases List.mem_cons.mp hp with rfl | hp2
          · exact ⟨pid, hpid, h1, h2⟩
          · obtain ⟨pid2, ha, hb, hc⟩ := ih (insert pid seen) p hp2
            exact ⟨pid2, ha, hb, fun hmem => hc (Finset.mem_insert_of_mem hmem)⟩

/-- C5: per batch, the number of records counted new equals the number of
distinct truthy place_ids neither in the seen set loaded at region start nor
seen earlier in the run; the resulting seen set is the union; and every
record kept (exactly these are handed to insert_places by the main loop) has
a truthy, previously unseen place_id. -/
theorem dedup_new_count (seen : Finset String) (batch : List Place) :
    (dedupLoop seen batch).1.length = ((validPids batch).toFinset \ seen).card ∧
    (dedupLoop seen batch).2 = seen ∪ (validPids batch).toFinset ∧
    ∀ p ∈ (dedupLoop seen batch).1,
      ∃ pid, p.place_id = some pid ∧ pid ≠ "" ∧ pid ∉ seen :=
  ⟨dedupLoop_length_card batch seen, dedupLoop_seen batch seen,
   dedupLoop_mem batch seen⟩

-- ---------- C10: invalid place_ids are dropped ----------

lemma dedupLoop_filter (batch : List Place) :
    ∀ seen : Finset String,
      dedupLoop seen (batch.filter hasPid) = dedupLoop seen batch := by
  induction batch with
  | nil => intro seen; simp
  | cons p rest ih =>
    intro seen
    rcases hpid : p.place_id with _ | pid
    · have hh : hasPid p = false := by simp [hasPid, hpid]
      rw [List.filter_cons_of_neg (by simp [hh])]
      simp only [dedupLoop, hpid]
      exact ih seen
    · by_cases h1 : pid = ""
      · have hh : hasPid p = false := by simp [hasPid, hpid, h1]
        rw [List.filter_cons_of_neg (by simp [hh])]
        simp only [dedupLoop, hpid]
        rw [if_pos (Or.inl h1)]
        exact ih seen
      · have hh : hasPid p = true := by simp [hasPid, hpid, h1]
        rw [List.filter_cons_of_pos (by simp [hh])]
        simp only [dedupLoop, hpid]
        by_cases h2 : pid ∈ seen
        · rw [if_pos (Or.inr h2), if_pos (Or.inr h2)]
          exact ih seen
        · rw [if_neg (not_or.mpr ⟨h1, h2⟩), if_neg (not_or.mpr ⟨h1, h2⟩)]
          rw [ih (insert pid seen)]

lemma dedup1000_filter (target : ℕ) (batch : List Place) :
    ∀ seen : Finset String,
      dedup1000 target seen (batch.filter hasPid) = dedup1000 target seen batch := by
  induction batch with
  | nil => intro seen; simp
  | cons p rest ih =>
    intro seen
    rcases hpid : p.place_id with _ | pid
    · have hh : hasPid p = false := by simp [hasPid, hpid]
      rw [List.filter_cons_of_neg (by simp [hh])]
      simp only [dedup1000, hpid]
      exact ih seen
    · by_cases h1 : pid = ""
      · have hh : hasPid p = false := by simp [hasPid, hpid, h1]
        rw [List.filter_cons_of_neg (by simp [hh])]
        simp only [dedup1000, hpid]
        rw [if_pos (Or.inl h1)]
        exact ih seen
      · have hh : hasPid p = true := by simp [hasPid, hpid, h1]
        rw [List.filter_cons_of_pos (by simp [hh])]
        simp only [dedup1000, hpid]
        by_cases h2 : pid ∈ seen
        · rw [if_pos (Or.inr h2), if_pos (Or.inr h2)]
          exact ih seen
        · rw [if_neg (not_or.mpr ⟨h1, h2⟩), if_neg (not_or.mpr ⟨h1, h2⟩)]
          by_cases h3 : target ≤ (insert pid seen).card
          · rw [if_pos h3, if_pos h3]
          · rw [if_neg h3, if_neg h3, ih (insert pid seen)]

/-- C10: a result whose place_id is missing or empty is invisible to both
crawl loops: filtering such records out of the batch changes neither the kept
records (hence neither the upserted rows nor the yield count) nor the seen
set, and every record the plateau loop keeps has a truthy place_id. -/
theorem invalid_place_id_dropped (seen : Finset String) (batch : List Place)
    (target : ℕ) :
    dedupLoop seen batch = dedupLoop seen (batch.filter hasPid) ∧
    dedup1000 target seen batch = dedup1000 target seen (batch.filter hasPid) ∧
    ∀ p ∈ (dedupLoop seen batch).1, hasPid p = true := by
  refine ⟨(dedupLoop_filter batch seen).symm, (dedup1000_filter target batch seen).symm, ?_⟩
  intro p hp
  obtain ⟨pid, ha, hb, _⟩ := dedupLoop_mem batch seen p hp
  simp [hasPid, ha, hb]

-- ---------- detector lemmas (C3, C4) ----------

lemma length_pushWindow (w : ℕ) (xs : List ℕ) (x : ℕ) :
    (pushWindow w xs x).length = min (xs.length + 1) w := by
  unfold pushWindow
  by_cases h : w < (xs ++ [x]).length
  · rw [if_pos h, List.length_drop]
    simp only [List.length_append, List.length_cons, List.length_nil] at h ⊢
    omega
  · rw [if_neg h]
    simp only [List.length_append, List.length_cons, List.length_nil] at h ⊢
    omega

lemma windowLenF_le (k : ℕ) : windowLenF k ≤ WINDOW := by
  unfold windowLenF
  split <;> omega

lemma windowLenF_succ (k : ℕ) (h : k + 1 ≠ MIN_POINTS_BEFORE_PLATEAU) :
    min (windowLenF k + 1) WINDOW = windowLenF (k + 1) := by
  unfold windowLenF MIN_POINTS_BEFORE_PLATEAU WINDOW at *
  split_ifs <;> omega

lemma detStep_inv (st : DetState) (x : ℕ)
    (hlen : st.recent.length = windowLenF st.points_done)
    (hst : st.stable_hits ≤ st.points_done - 128) :
    (detStep st x).1.points_done = st.points_done + 1 ∧
    (detStep st x).1.recent.length = windowLenF (st.points_done + 1) ∧
    (detStep st x).1.stable_hits ≤ st.points_done + 1 - 128 ∧
    ((detStep st x).2 = true → 133 ≤ (detStep st x).1.points_done) := by
  by_cases h80 : st.points_done + 1 = MIN_POINTS_BEFORE_PLATEAU
  · have hlen1 : (pushWindow WINDOW [] x).length = 1 := by
      rw [length_pushWindow]
      simp [WINDOW]
    simp only [detStep, if_pos h80]
    rw [if_neg (by rw [hlen1]; simp [WINDOW])]
    refine ⟨rfl, ?_, by simp, by simp⟩
    rw [hlen1, h80]
    simp [windowLenF, MIN_POINTS_BEFORE_PLATEAU, WINDOW]
  · have hlen2 : (pushWindow WINDOW st.recent x).length = windowLenF (st.points_done + 1) := by
      rw [length_pushWindow, hlen]
      exact windowLenF_succ _ h80
    simp only [detStep, if_neg h80]
    by_cases hfull : (pushWindow WINDOW st.recent x).length = WINDOW
    · rw [if_pos hfull]
      by_cases hlt : st.points_done + 1 < MIN_POINTS_BEFORE_PLATEAU
      · rw [if_pos hlt]
        exact ⟨rfl, hlen2, by simp, by simp⟩
      · rw [if_neg hlt]
        have hk128 : 128 ≤ st.points_done := by
          have h50 : windowLenF (st.points_done + 1) = WINDOW := by rw [← hlen2, hfull]
          have hlt2 : ¬ st.points_done + 1 < 80 := by
            simpa [MIN_POINTS_BEFORE_PLATEAU] using hlt
          simp only [windowLenF, MIN_POINTS_BEFORE_PLATEAU, WINDOW] at h50
          split_ifs at h50 <;> omega
        by_cases havg : avg_new (pushWindow WINDOW st.recent x) < MIN_NEW_AVG
        · rw [if_pos havg]
          refine ⟨rfl, hlen2, by simp; omega, ?_⟩
          intro hb
          simp only [decide_eq_true_eq, STABLE_WINDOWS] at hb
          simp only []
          omega
        · rw [if_neg havg]
          refine ⟨rfl, hlen2, by simp, ?_⟩
          intro hb
          simp [STABLE_WINDOWS] at hb
    · rw [if_neg hfull]
      exact ⟨rfl, hlen2, by simp; omega, by simp⟩

lemma detRun_inv (xs : List ℕ) :
    ∀ st : DetState,
      st.recent.length = windowLenF st.points_done →
      st.stable_hits ≤ st.points_done - 128 →
      (detRun st xs).2 = true → 133 ≤ (detRun st xs).1.points_done := by
  induction xs with
  | nil => intro st _ _ h; simp [detRun] at h
  | cons x rest ih =>
    intro st hlen hst
    obtain ⟨hpd, hlen2, hst2, hstop⟩ := detStep_inv st x hlen hst
    simp only [detRun]
    by_cases hb : (detStep st x).2
    · rw [if_pos hb]
      intro _
      exact hstop hb
    · rw [if_neg hb]
      exact ih (detStep st x).1 (hpd ▸ hlen2) (by omega)

/-- C3: crossing the warm-up boundary at point 80 resets window and counter,
so the detector state after that point does not depend at all on the
pre-warm-up window or counter; consequently the plateau break is never
signalled before point 133 on any input sequence. -/
theorem detector_warmup_reset_earliest_stop :
    (∀ xs : List ℕ,
      (detRun detInit xs).2 = true → 133 ≤ (detRun detInit xs).1.points_done) ∧
    (∀ (r1 : List ℕ) (s1 : ℕ) (r2 : List ℕ) (s2 : ℕ) (x : ℕ),
      detStep ⟨r1, s1, 79⟩ x = detStep ⟨r2, s2, 79⟩ x) := by
  constructor
  · intro xs
    exact detRun_inv xs detInit rfl (by simp [detInit])
  · intro r1 s1 r2 s2 x
    rfl

lemma avg_zeros : avg_new (List.replicate WINDOW 0) < MIN_NEW_AVG := by
  unfold avg_new MIN_NEW_AVG WINDOW
  simp [List.sum_replicate]

lemma pushWindow_zeros (L : ℕ) :
    pushWindow WINDOW (List.replicate L 0) 0 = List.replicate (min (L + 1) WINDOW) 0 := by
  unfold pushWindow WINDOW
  have h : List.replicate L (0:ℕ) ++ [0] = List.replicate (L + 1) 0 :=
    (List.replicate_succ' L 0).symm
  rw [h]
  by_cases h50 : 50 < (List.replicate (L + 1) (0:ℕ)).length
  · rw [if_pos h50, List.length_replicate, List.drop_replicate]
    rw [List.length_replicate] at h50
    congr 1
    omega
  · rw [if_neg h50]
    rw [List.length_replicate] at h50
    congr 1
    omega

lemma detStep_zeros (k : ℕ) (hk : k + 1 ≤ 132) :
    detStep ⟨List.replicate (windowLenF k) 0, k - 128, k⟩ 0
      = (⟨List.replicate (windowLenF (k + 1)) 0, k + 1 - 128, k + 1⟩, false) := by
  by_cases h80 : k + 1 = MIN_POINTS_BEFORE_PLATEAU
  · have h79 : k = 79 := by
      simp only [MIN_POINTS_BEFORE_PLATEAU] at h80
      omega
    subst h79
    simp only [detStep, if_pos h80]
    rw [show pushWindow WINDOW [] 0 = List.replicate 1 0 from rfl]
    rw [List.length_replicate, if_neg (by simp [WINDOW])]
    rw [show (79:ℕ) + 1 - 128 = 0 from rfl]
    rw [show windowLenF (79 + 1) = 1 from by
      simp [windowLenF, MIN_POINTS_BEFORE_PLATEAU, WINDOW]]
  · simp only [detStep, if_neg h80]
    rw [pushWindow_zeros, windowLenF_succ k h80, List.length_replicate]
    by_cases hfull : windowLenF (k + 1) = WINDOW
    · rw [if_pos hfull]
      by_cases hlt : k + 1 < MIN_POINTS_BEFORE_PLATEAU
      · rw [if_pos hlt]
        rw [show k + 1 - 128 = 0 from by
          simp only [MIN_POINTS_BEFORE_PLATEAU] at hlt
          omega]
      · rw [if_neg hlt]
        have hk128 : 128 ≤ k := by
          simp only [windowLenF, MIN_POINTS_BEFORE_PLATEAU, WINDOW] at hfull hlt
          split_ifs at hfull <;> omega
        rw [hfull, if_pos avg_zeros]
        rw [show k - 128 + 1 = k + 1 - 128 from by omega]
        rw [show decide (STABLE_WINDOWS ≤ k + 1 - 128) = false from by
          simp only [STABLE_WINDOWS, decide_eq_false_iff_not]
          omega]
    · rw [if_neg hfull]
      have hk128 : k + 1 ≤ 128 := by
        simp only [windowLenF, MIN_POINTS_BEFORE_PLATEAU, WINDOW] at hfull
        split_ifs at hfull <;> omega
      rw [show k - 128 = k + 1 - 128 from by omega]

lemma detStep_zeros_stop :
    detStep ⟨List.replicate (windowLenF 132) 0, 4, 132⟩ 0
      = (⟨List.replicate WINDOW 0, 5, 133⟩, true) := by
  have h80 : (132:ℕ) + 1 ≠ MIN_POINTS_BEFORE_PLATEAU := by
    simp [MIN_POINTS_BEFORE_PLATEAU]
  simp only [detStep, if_neg h80]
  rw [pushWindow_zeros, windowLenF_succ 132 h80, List.length_replicate]
  have hfull : windowLenF (132 + 1) = WINDOW := by
    simp [windowLenF, MIN_POINTS_BEFORE_PLATEAU, WINDOW]
  rw [if_pos hfull]
  rw [if_neg (show ¬ ((132:ℕ) + 1 < MIN_POINTS_BEFORE_PLATEAU) from by
    simp [MIN_POINTS_BEFORE_PLATEAU])]
  rw [hfull, if_pos avg_zeros]
  rw [show (4:ℕ) + 1 = 5 from rfl]
  rw [show decide (STABLE_WINDOWS ≤ 5) = true from by simp [STABLE_WINDOWS]]

lemma detRun_zeros : ∀ (m k : ℕ), k + m = 133 → 0 < m →
    (detRun ⟨List.replicate (windowLenF k) 0, k - 128, k⟩ (List.replicate m 0)).2 = true := by
  intro m
  induction m with
  | zero => intro k _ hm; omega
  | succ m ih =>
    intro k hk _
    rw [List.replicate_succ]
    simp only [detRun]
    by_cases hm0 : m = 0
    · subst hm0
      have hk2 : k = 132 := by omega
      subst hk2
      rw [show (132:ℕ) - 128 = 4 from rfl, detStep_zeros_stop]
      simp
    · have hk1 : k + 1 ≤ 132 := by omega
      rw [detStep_zeros k hk1]
      simp only [if_neg Bool.false_ne_true]
      exact ih (k + 1) (by omega) (by omega)

/-- Witness for C3: 133 zero-yield points break exactly at point 133, and a
concrete pre-warm-up state is erased by the reset at point 80. -/
theorem detector_warmup_reset_earliest_stop_witness :
    133 ≤ (detRun detInit (List.replicate 133 0)).1.points_done ∧
    detStep ⟨[9, 9], 4, 79⟩ 0 = detStep ⟨[], 0, 79⟩ 0 :=
  ⟨detector_warmup_reset_earliest_stop.1 (List.replicate 133 0)
     (detRun_zeros 133 0 rfl (by omega)),
   detector_warmup_reset_earliest_stop.2 [9, 9] 4 [] 0 0⟩


lemma slice_snoc (a L : ℕ) :
    ((List.range L).map fun j => (a + j) % 2) ++ [(a + L) % 2]
      = (List.range (L + 1)).map fun j => (a + j) % 2 := by
  rw [List.range_succ, List.map_append]
  rfl

lemma slice_drop (a L : ℕ) :
    (((List.range (L + 1)).map fun j => (a + j) % 2).drop 1)
      = (List.range L).map fun j => (a + 1 + j) % 2 := by
  rw [List.range_succ_eq_map]
  simp only [List.map_cons, List.drop_succ_cons, List.drop_zero, List.map_map]
  apply List.map_congr_left
  intro j _
  simp only [Function.comp_apply]
  congr 1
  omega

lemma altsum (b : ℕ) : (((List.range 50).map fun j => (b + j) % 2).sum) = 25 := by
  rcases Nat.mod_two_eq_zero_or_one b with h | h
  · have key : ∀ j, (b + j) % 2 = j % 2 := fun j => by omega
    simp only [key]
    decide
  · have key : ∀ j, (b + j) % 2 = (1 + j) % 2 := fun j => by omega
    simp only [key]
    decide

lemma avg_alt (b : ℕ) :
    ¬ (avg_new ((List.range WINDOW).map fun j => (b + j) % 2) < MIN_NEW_AVG) := by
  unfold avg_new MIN_NEW_AVG WINDOW
  rw [altsum b]
  simp only [List.length_map, List.length_range]
  norm_num

lemma pushWindow_slice (a L : ℕ) (hL : L ≤ WINDOW) :
    pushWindow WINDOW ((List.range L).map fun j => (a + j) % 2) ((a + L) % 2)
      = if L = WINDOW
        then (List.range WINDOW).map fun j => (a + 1 + j) % 2
        else (List.range (L + 1)).map fun j => (a + j) % 2 := by
  unfold pushWindow
  rw [slice_snoc]
  simp only [List.length_map, List.length_range]
  by_cases hfull : L = WINDOW
  · subst hfull
    rw [if_pos (by omega : WINDOW < WINDOW + 1), if_pos rfl]
    rw [show WINDOW + 1 - WINDOW = 1 from by omega]
    exact slice_drop a WINDOW
  · rw [if_neg (by unfold WINDOW at *; omega), if_neg hfull]

lemma detStep_alt (b L k : ℕ) (hbL : b + L = k) (hLf : L = windowLenF k) :
    (detStep ⟨(List.range L).map fun j => (b + j) % 2, 0, k⟩ (k % 2)).2 = false ∧
    ∃ c M,
      detStep ⟨(List.range L).map fun j => (b + j) % 2, 0, k⟩ (k % 2)
        = (⟨(List.range M).map fun j => (c + j) % 2, 0, k + 1⟩, false) ∧
      c + M = k + 1 ∧ M = windowLenF (k + 1) := by
  have hLW : L ≤ WINDOW := hLf ▸ windowLenF_le k
  by_cases h80 : k + 1 = MIN_POINTS_BEFORE_PLATEAU
  · simp only [detStep, if_pos h80]
    rw [show pushWindow WINDOW [] (k % 2) = [k % 2] from by
      unfold pushWindow WINDOW
      norm_num]
    rw [show ([k % 2] : List ℕ).length = 1 from rfl]
    rw [if_neg (by simp [WINDOW])]
    refine ⟨rfl, k, 1, ?_, by omega, ?_⟩
    · rw [show List.range 1 = [0] from rfl]
      simp
    · rw [h80]
      simp [windowLenF, MIN_POINTS_BEFORE_PLATEAU, WINDOW]
  · have h80b : b + L + 1 ≠ MIN_POINTS_BEFORE_PLATEAU := by rw [hbL]; exact h80
    have hLfb : L = windowLenF (b + L) := by rw [hbL]; exact hLf
    have hw : min (L + 1) WINDOW = windowLenF (b + L + 1) := by
      conv_lhs => rw [hLfb]
      exact windowLenF_succ (b + L) h80b
    simp only [detStep, if_neg h80]
    rw [← hbL, pushWindow_slice b L hLW]
    by_cases hfull2 : L = WINDOW
    · rw [if_pos hfull2]
      rw [show (((List.range WINDOW).map fun j => (b + 1 + j) % 2).length) = WINDOW from by
        simp]
      rw [if_pos rfl]
      by_cases hlt : b + L + 1 < MIN_POINTS_BEFORE_PLATEAU
      · rw [if_pos hlt]
        refine ⟨rfl, b + 1, WINDOW, rfl, by omega, ?_⟩
        simp only [WINDOW] at hw hfull2 ⊢
        omega
      · rw [if_neg hlt, if_neg (avg_alt (b + 1))]
        rw [show decide (STABLE_WINDOWS ≤ 0) = false from by simp [STABLE_WINDOWS]]
        refine ⟨rfl, b + 1, WINDOW, rfl, by omega, ?_⟩
        simp only [WINDOW] at hw hfull2 ⊢
        omega
    · rw [if_neg hfull2]
      rw [show (((List.range (L + 1)).map fun j => (b + j) % 2).length) = L + 1 from by
        simp]
      by_cases hfull3 : L + 1 = WINDOW
      · rw [if_pos hfull3]
        by_cases hlt : b + L + 1 < MIN_POINTS_BEFORE_PLATEAU
        · rw [if_pos hlt]
          refine ⟨rfl, b, L + 1, rfl, by omega, ?_⟩
          simp only [WINDOW] at hw hfull3 ⊢
          omega
        · rw [if_neg hlt]
          rw [hfull3, if_neg (avg_alt b)]
          rw [show decide (STABLE_WINDOWS ≤ 0) = false from by simp [STABLE_WINDOWS]]
          refine ⟨rfl, b, WINDOW, rfl, by omega, ?_⟩
          simp only [WINDOW] at hw hfull3 ⊢
          omega
      · rw [if_neg hfull3]
        refine ⟨rfl, b, L + 1, rfl, by omega, ?_⟩
        simp only [WINDOW] at hw hLW hfull2 ⊢
        omega

lemma detRun_alt (m : ℕ) :
    ∀ (b L k : ℕ), b + L = k → L = windowLenF k →
      (detRun ⟨(List.range L).map fun j => (b + j) % 2, 0, k⟩
        ((List.range' k m).map fun i => i % 2)).2 = false := by
  induction m with
  | zero => intro b L k _ _; simp [detRun]
  | succ m ih =>
    intro b L k hbL hLf
    rw [List.range'_succ, List.map_cons]
    simp only [detRun]
    obtain ⟨hstop, c, M, heq, hcM, hMf⟩ := detStep_alt b L k hbL hLf
    rw [heq]
    simp only [if_neg Bool.false_ne_true]
    exact ih c M (k + 1) hcM hMf

/-- C4: with window 50, threshold 0.5 and stability 5, an alternating 0/1
new-record sequence keeps every full-window average at exactly 1/2, which is
not below the threshold, so the low-yield counter is reset at every point and
the plateau break is never signalled, however many points are processed. -/
theorem detector_alternating_never_stops (n : ℕ) :
    (detRun detInit ((List.range n).map fun i => i % 2)).2 = false := by
  rw [List.range_eq_range']
  exact detRun_alt n 0 0 0 rfl rfl

-- ---------- grid lemmas (C6) ----------

/-- The closed form of ladder satisfies exactly the recurrence of the source
while-loop (x = lo; while x <= hi: yield x; x += step) whenever the step is
positive, which justifies the embedding. -/
lemma ladder_eq_loop (lo hi step : ℚ) (h : 0 < step) :
    ladder lo hi step = if lo ≤ hi then lo :: ladder (lo + step) hi step else [] := by
  by_cases hle : lo ≤ hi
  · rw [if_pos hle]
    by_cases hle2 : lo + step ≤ hi
    · have hfloor : ⌊(hi - lo) / step⌋ = ⌊(hi - (lo + step)) / step⌋ + 1 := by
        have hsplit : (hi - lo) / step = (hi - (lo + step)) / step + 1 := by
          field_simp
          ring
        rw [hsplit, Int.floor_add_one]
      have h0 : (0:ℤ) ≤ ⌊(hi - (lo + step)) / step⌋ :=
        Int.floor_nonneg.mpr (div_nonneg (by linarith) h.le)
      unfold ladder ladderLen
      rw [if_pos ⟨hle, h⟩, if_pos ⟨hle2, h⟩, hfloor]
      rw [show (⌊(hi - (lo + step)) / step⌋ + 1).toNat = ⌊(hi - (lo + step)) / step⌋.toNat + 1 from by
        omega]
      rw [List.range_succ_eq_map, List.map_cons, List.map_map]
      congr 1
      · push_cast
        ring
      · apply List.map_congr_left
        intro j _
        simp only [Function.comp_apply]
        push_cast
        ring
    · have hlt : hi - lo < step := by linarith
      have hfloor : ⌊(hi - lo) / step⌋ = 0 := by
        rw [Int.floor_eq_zero_iff]
        constructor
        · exact div_nonneg (by linarith) h.le
        · rw [div_lt_one h]
          linarith
      unfold ladder ladderLen
      rw [if_pos ⟨hle, h⟩, if_neg (fun hc => hle2 hc.1), hfloor]
      rw [show ((0:ℤ).toNat + 1) = 1 from rfl,
        show List.range 1 = [0] from rfl, List.map_cons, List.map_nil]
      norm_num
  · rw [if_neg hle]
    unfold ladder ladderLen
    rw [if_neg (fun hc => hle hc.1)]
    simp

lemma ladder_mem (lo hi step x : ℚ) (hx : x ∈ ladder lo hi step) :
    lo ≤ x ∧ x ≤ hi := by
  unfold ladder ladderLen at hx
  by_cases hcond : lo ≤ hi ∧ 0 < step
  · rw [if_pos hcond] at hx
    obtain ⟨k, hk, rfl⟩ := List.mem_map.mp hx
    rw [List.mem_range] at hk
    have hstep := hcond.2
    have hd : (0:ℚ) ≤ (hi - lo) / step := div_nonneg (by linarith [hcond.1]) hstep.le
    have hfl : (0:ℤ) ≤ ⌊(hi - lo) / step⌋ := Int.floor_nonneg.mpr hd
    have hk2 : (k : ℤ) ≤ ⌊(hi - lo) / step⌋ := by omega
    have hkq : (k : ℚ) ≤ (hi - lo) / step := by
      calc (k : ℚ) ≤ (⌊(hi - lo) / step⌋ : ℤ) := by exact_mod_cast hk2
        _ ≤ (hi - lo) / step := Int.floor_le _
    have hmul : (k : ℚ) * step ≤ hi - lo := (le_div_iff₀ hstep).mp hkq
    have hk0 : (0:ℚ) ≤ (k : ℚ) * step := mul_nonneg (by positivity) hstep.le
    constructor
    · linarith
    · linarith
  · rw [if_neg hcond] at hx
    simp at hx

/-- C6: whenever the latitude step and every per-row longitude step are
positive (which holds for every real latitude thanks to the 1e-9 guard),
every point the grid generator yields lies inside the bounding box;
generate_grid_points of the second script produces the same list as
grid_points; and both coordinate ladders satisfy exactly the recurrence of
the source while-loop, so the finite list-valued generator is a faithful
embedding of the loop, which is deterministic and terminates under these
hypotheses. -/
theorem grid_points_in_bbox (bbox : BBox) (step_m : ℚ) (coslat : ℚ → ℚ)
    (p : ℚ × ℚ) (hstep : 0 < step_m)
    (hcos : ∀ lat : ℚ, 0 < 111320 * coslat lat + 1 / 1000000000)
    (hp : p ∈ grid_points bbox step_m coslat) :
    (bbox.lat_min ≤ p.1 ∧ p.1 ≤ bbox.lat_max ∧
     bbox.lng_min ≤ p.2 ∧ p.2 ≤ bbox.lng_max) ∧
    generate_grid_points bbox step_m coslat = grid_points bbox step_m coslat ∧
    (ladder bbox.lat_min bbox.lat_max (meters_to_lat step_m)
      = if bbox.lat_min ≤ bbox.lat_max then
          bbox.lat_min :: ladder (bbox.lat_min + meters_to_lat step_m) bbox.lat_max
            (meters_to_lat step_m)
        else []) ∧
    (∀ lat : ℚ, ladder bbox.lng_min bbox.lng_max (meters_to_lng step_m (coslat lat))
      = if bbox.lng_min ≤ bbox.lng_max then
          bbox.lng_min :: ladder (bbox.lng_min + meters_to_lng step_m (coslat lat))
            bbox.lng_max (meters_to_lng step_m (coslat lat))
        else []) := by
  have hlatstep : 0 < meters_to_lat step_m := div_pos hstep (by norm_num)
  have hlngstep : ∀ lat : ℚ, 0 < meters_to_lng step_m (coslat lat) :=
    fun lat => div_pos hstep (hcos lat)
  refine ⟨?_, rfl, ladder_eq_loop _ _ _ hlatstep,
    fun lat => ladder_eq_loop _ _ _ (hlngstep lat)⟩
  unfold grid_points at hp
  obtain ⟨lat, hlat, hp2⟩ := List.mem_flatMap.mp hp
  obtain ⟨lng, hlng, rfl⟩ := List.mem_map.mp hp2
  have h1 := ladder_mem _ _ _ _ hlat
  have h2 := ladder_mem _ _ _ _ hlng
  exact ⟨h1.1, h1.2, h2.1, h2.2⟩

lemma ladder_head_mem (lo hi step : ℚ) (hle : lo ≤ hi) (h : 0 < step) :
    lo ∈ ladder lo hi step := by
  rw [ladder_eq_loop lo hi step h, if_pos hle]
  exact List.mem_cons_self _ _

/-- Witness for C6: the corner point of a concrete box with a concrete step
is produced by the generator and certified inside the box. -/
theorem grid_points_in_bbox_witness :
    (bboxTest.lat_min ≤ (0:ℚ) ∧ (0:ℚ) ≤ bboxTest.lat_max ∧
     bboxTest.lng_min ≤ (0:ℚ) ∧ (0:ℚ) ≤ bboxTest.lng_max) ∧
    generate_grid_points bboxTest 500 cosOne = grid_points bboxTest 500 cosOne ∧
    (ladder bboxTest.lat_min bboxTest.lat_max (meters_to_lat 500)
      = if bboxTest.lat_min ≤ bboxTest.lat_max then
          bboxTest.lat_min :: ladder (bboxTest.lat_min + meters_to_lat 500) bboxTest.lat_max
            (meters_to_lat 500)
        else []) ∧
    (∀ lat : ℚ, ladder bboxTest.lng_min bboxTest.lng_max (meters_to_lng 500 (cosOne lat))
      = if bboxTest.lng_min ≤ bboxTest.lng_max then
          bboxTest.lng_min :: ladder (bboxTest.lng_min + meters_to_lng 500 (cosOne lat))
            bboxTest.lng_max (meters_to_lng 500 (cosOne lat))
        else []) := by
  have hlat : ((0:ℚ)) ∈ ladder bboxTest.lat_min bboxTest.lat_max (meters_to_lat 500) := by
    have := ladder_head_mem bboxTest.lat_min bboxTest.lat_max (meters_to_lat 500)
      (by norm_num [bboxTest]) (by norm_num [meters_to_lat])
    simpa [bboxTest] using this
  have hlng : ((0:ℚ)) ∈ ladder bboxTest.lng_min bboxTest.lng_max
      (meters_to_lng 500 (cosOne 0)) := by
    have := ladder_head_mem bboxTest.lng_min bboxTest.lng_max
      (meters_to_lng 500 (cosOne 0))
      (by norm_num [bboxTest]) (by norm_num [meters_to_lng, cosOne])
    simpa [bboxTest] using this
  have hmem : ((0:ℚ), (0:ℚ)) ∈ grid_points bboxTest 500 cosOne := by
    unfold grid_points
    exact List.mem_flatMap.mpr ⟨0, hlat, List.mem_map.mpr ⟨0, hlng, rfl⟩⟩
  exact grid_points_in_bbox bboxTest 500 cosOne ((0:ℚ), (0:ℚ))
    (by norm_num) (fun lat => by norm_num [cosOne]) hmem

-- ---------- upsert lemmas (C7) ----------

lemma upd_upd (c pid : String) (d : RowData) (t1 t2 : ℕ) (a : Row) :
    updRow ⟨c, some pid, d, t2⟩ (updRow ⟨c, some pid, d, t1⟩ a)
      = updRow ⟨c, some pid, d, t2⟩ a := by
  unfold updRow
  by_cases h : sameKey a ⟨c, some pid, d, t1⟩
  · rw [if_pos h]
    have h2 : sameKey (⟨a.city, a.place_id, d, t1⟩ : Row) ⟨c, some pid, d, t2⟩ := by
      obtain ⟨x, y, z⟩ := h
      exact ⟨x, y, z⟩
    rw [if_pos h2, if_pos (show sameKey a ⟨c, some pid, d, t2⟩ from h)]
  · rw [if_neg h, if_neg (show ¬ sameKey a ⟨c, some pid, d, t2⟩ from h)]

lemma strip_upd (c pid : String) (d : RowData) (t1 t2 : ℕ) (a : Row) :
    stripTime (updRow ⟨c, some pid, d, t2⟩ a) = stripTime (updRow ⟨c, some pid, d, t1⟩ a) := by
  unfold updRow stripTime
  by_cases h : sameKey a ⟨c, some pid, d, t1⟩
  · rw [if_pos h, if_pos (show sameKey a ⟨c, some pid, d, t2⟩ from h)]
  · rw [if_neg h, if_neg (show ¬ sameKey a ⟨c, some pid, d, t2⟩ from h)]

lemma find_map_upd (c pid : String) (d : RowData) (t : ℕ) :
    ∀ s : List Row, s.any (fun a => decide (sameKey a ⟨c, some pid, d, t⟩)) = true →
      lookupFetched (s.map (updRow ⟨c, some pid, d, t⟩)) c pid = some t := by
  intro s
  induction s with
  | nil => intro h; simp at h
  | cons a rest ih =>
    intro h
    rw [List.map_cons]
    unfold lookupFetched
    by_cases hk : sameKey a ⟨c, some pid, d, t⟩
    · have hupd : updRow ⟨c, some pid, d, t⟩ a = ⟨a.city, a.place_id, d, t⟩ := by
        unfold updRow
        rw [if_pos hk]
      rw [hupd]
      rw [List.find?_cons_of_pos _ (by
        obtain ⟨h1, h2, _⟩ := hk
        simp [h1, h2])]
      rfl
    · have hupd : updRow ⟨c, some pid, d, t⟩ a = a := by
        unfold updRow
        rw [if_neg hk]
      rw [hupd]
      rw [List.find?_cons_of_neg _ (by
        simp only [decide_eq_true_eq]
        rintro ⟨h1, h2⟩
        exact hk ⟨h1, h2, by simp [h2]⟩)]
      have htail : rest.any (fun a => decide (sameKey a ⟨c, some pid, d, t⟩)) = true := by
        simp only [List.any_cons, Bool.or_eq_true] at h
        rcases h with hh | hh
        · exact absurd (of_decide_eq_true hh) hk
        · exact hh
      exact ih htail

lemma find_append_mk (c pid : String) (d : RowData) (t : ℕ) :
    ∀ s : List Row, s.any (fun a => decide (sameKey a ⟨c, some pid, d, t⟩)) = false →
      lookupFetched (s ++ [(⟨c, some pid, d, t⟩ : Row)]) c pid = some t := by
  intro s
  induction s with
  | nil =>
    intro _
    rw [List.nil_append]
    unfold lookupFetched
    rw [List.find?_cons_of_pos _ (by simp)]
    rfl
  | cons a rest ih =>
    intro h
    simp only [List.any_cons, Bool.or_eq_false_iff] at h
    have hhead : ¬ sameKey a ⟨c, some pid, d, t⟩ := of_decide_eq_false h.1
    rw [List.cons_append]
    unfold lookupFetched
    rw [List.find?_cons_of_neg _ (by
      simp only [decide_eq_true_eq]
      rintro ⟨h1, h2⟩
      exact hhead ⟨h1, h2, by simp [h2]⟩)]
    exact ih h.2

lemma upsertRow_twice (s : List Row) (c pid : String) (d : RowData) (t1 t2 : ℕ) :
    (upsertRow (upsertRow s ⟨c, some pid, d, t1⟩) ⟨c, some pid, d, t2⟩).map stripTime
      = (upsertRow s ⟨c, some pid, d, t1⟩).map stripTime ∧
    (upsertRow (upsertRow s ⟨c, some pid, d, t1⟩) ⟨c, some pid, d, t2⟩).length
      = (upsertRow s ⟨c, some pid, d, t1⟩).length ∧
    lookupFetched (upsertRow s ⟨c, some pid, d, t1⟩) c pid = some t1 ∧
    lookupFetched (upsertRow (upsertRow s ⟨c, some pid, d, t1⟩) ⟨c, some pid, d, t2⟩) c pid
      = some t2 := by
  by_cases hAny : s.any (fun a => decide (sameKey a (⟨c, some pid, d, t1⟩ : Row))) = true
  · have hs1 : upsertRow s ⟨c, some pid, d, t1⟩ = s.map (updRow ⟨c, some pid, d, t1⟩) := by
      unfold upsertRow
      rw [if_pos hAny]
    have hAny2 : (s.map (updRow ⟨c, some pid, d, t1⟩)).any
        (fun a => decide (sameKey a (⟨c, some pid, d, t2⟩ : Row))) = true := by
      obtain ⟨a, ha, hpa⟩ := List.any_eq_true.mp hAny
      apply List.any_eq_true.mpr
      refine ⟨updRow ⟨c, some pid, d, t1⟩ a, List.mem_map.mpr ⟨a, ha, rfl⟩, ?_⟩
      have hk := of_decide_eq_true hpa
      apply decide_eq_true
      unfold updRow
      rw [if_pos hk]
      obtain ⟨x, y, z⟩ := hk
      exact ⟨x, y, z⟩
    have hs2 : upsertRow (s.map (updRow ⟨c, some pid, d, t1⟩)) ⟨c, some pid, d, t2⟩
        = (s.map (updRow ⟨c, some pid, d, t1⟩)).map (updRow ⟨c, some pid, d, t2⟩) := by
      unfold upsertRow
      rw [if_pos hAny2]
    rw [hs1, hs2]
    refine ⟨?_, by simp, find_map_upd c pid d t1 s hAny, find_map_upd c pid d t2 _ hAny2⟩
    rw [List.map_map, List.map_map, List.map_map]
    apply List.map_congr_left
    intro a _
    simp only [Function.comp_apply]
    rw [upd_upd]
    exact strip_upd c pid d t1 t2 a
  · have hAnyF : s.any (fun a => decide (sameKey a (⟨c, some pid, d, t1⟩ : Row))) = false := by
      revert hAny
      rcases s.any (fun a => decide (sameKey a (⟨c, some pid, d, t1⟩ : Row))) with _ | _ <;> simp
    have hs1 : upsertRow s ⟨c, some pid, d, t1⟩ = s ++ [(⟨c, some pid, d, t1⟩ : Row)] := by
      unfold upsertRow
      rw [if_neg hAny]
    have hAny2 : (s ++ [(⟨c, some pid, d, t1⟩ : Row)]).any
        (fun a => decide (sameKey a (⟨c, some pid, d, t2⟩ : Row))) = true := by
      apply List.any_eq_true.mpr
      refine ⟨⟨c, some pid, d, t1⟩, by simp, decide_eq_true ⟨rfl, rfl, by simp⟩⟩
    have hmapid : ∀ a ∈ s, updRow (⟨c, some pid, d, t2⟩ : Row) a = a := by
      intro a ha
      have hfalse : decide (sameKey a (⟨c, some pid, d, t1⟩ : Row)) = false := by
        rcases hd : decide (sameKey a (⟨c, some pid, d, t1⟩ : Row)) with _ | _
        · rfl
        · have hcontra : (s.any fun x =>
              decide (sameKey x (⟨c, some pid, d, t1⟩ : Row))) = true :=
            List.any_eq_true.mpr ⟨a, ha, hd⟩
          rw [hAnyF] at hcontra
          exact absurd hcontra Bool.false_ne_true
      unfold updRow
      rw [if_neg (show ¬ sameKey a ⟨c, some pid, d, t2⟩ from of_decide_eq_false hfalse)]
    have hs2 : upsertRow (s ++ [(⟨c, some pid, d, t1⟩ : Row)]) ⟨c, some pid, d, t2⟩
        = s ++ [(⟨c, some pid, d, t2⟩ : Row)] := by
      unfold upsertRow
      rw [if_pos hAny2, List.map_append]
      congr 1
      · exact (List.map_congr_left hmapid).trans (List.map_id s)
      · rw [List.map_cons, List.map_nil]
        congr 1
        unfold updRow
        rw [if_pos (show sameKey (⟨c, some pid, d, t1⟩ : Row) ⟨c, some pid, d, t2⟩ from
          ⟨rfl, rfl, by simp⟩)]
    rw [hs1, hs2]
    refine ⟨?_, by simp, find_append_mk c pid d t1 s hAnyF, find_append_mk c pid d t2 s hAnyF⟩
    rw [List.map_append, List.map_append]
    rfl

lemma insert_places_single (s : List Row) (c : String) (p : Place) (t : ℕ) :
    insert_places s c [p] t = upsertRow s ⟨c, p.place_id, rowDataOf p, t⟩ := by
  unfold insert_places
  rw [if_neg (by simp)]
  rfl

lemma upsert_restaurants_single (s : List Row) (c : String) (p : Place) (t : ℕ) :
    upsert_restaurants s c [p] t = upsertRow s ⟨c, p.place_id, rowDataOfTS p, t⟩ := rfl

/-- C7: upserting the same place twice with identical field values leaves the
store observably unchanged except for fetched_at: same rows up to timestamps
(hence same row count, key and descriptive fields), while fetched_at of the
key is refreshed to the later call's clock, which is monotone when the clock
is. Proved for insert_places (plateau script) and upsert_restaurants
(text-search script). -/
theorem upsert_idempotent (s : List Row) (p : Place) (c pid : String) (t1 t2 : ℕ)
    (hpid : p.place_id = some pid) (ht : t1 ≤ t2) :
    ((insert_places (insert_places s c [p] t1) c [p] t2).map stripTime
        = (insert_places s c [p] t1).map stripTime ∧
      (insert_places (insert_places s c [p] t1) c [p] t2).length
        = (insert_places s c [p] t1).length ∧
      lookupFetched (insert_places s c [p] t1) c pid = some t1 ∧
      lookupFetched (insert_places (insert_places s c [p] t1) c [p] t2) c pid = some t2) ∧
    ((upsert_restaurants (upsert_restaurants s c [p] t1) c [p] t2).map stripTime
        = (upsert_restaurants s c [p] t1).map stripTime ∧
      lookupFetched (upsert_restaurants s c [p] t1) c pid = some t1 ∧
      lookupFetched (upsert_restaurants (upsert_restaurants s c [p] t1) c [p] t2) c pid
        = some t2) ∧
    (∀ u v : ℕ, lookupFetched (insert_places s c [p] t1) c pid = some u →
      lookupFetched (insert_places (insert_places s c [p] t1) c [p] t2) c pid = some v →
      u ≤ v) := by
  have h1 := upsertRow_twice s c pid (rowDataOf p) t1 t2
  have h2 := upsertRow_twice s c pid (rowDataOfTS p) t1 t2
  rw [insert_places_single, insert_places_single, hpid]
  rw [upsert_restaurants_single, upsert_restaurants_single, hpid]
  refine ⟨⟨h1.1, h1.2.1, h1.2.2.1, h1.2.2.2⟩, ⟨h2.1, h2.2.2.1, h2.2.2.2⟩, ?_⟩
  intro u v hu hv
  rw [h1.2.2.1] at hu
  rw [h1.2.2.2] at hv
  obtain rfl : u = t1 := (Option.some.injEq _ _ ▸ hu).symm
  obtain rfl : v = t2 := (Option.some.injEq _ _ ▸ hv).symm
  exact ht

/-- Witness for C7: a concrete double upsert of one fully populated place. -/
theorem upsert_idempotent_witness :
    ((insert_places (insert_places [] "SF" [placeX] 0) "SF" [placeX] 1).map stripTime
        = (insert_places [] "SF" [placeX] 0).map stripTime ∧
      (insert_places (insert_places [] "SF" [placeX] 0) "SF" [placeX] 1).length
        = (insert_places [] "SF" [placeX] 0).length ∧
      lookupFetched (insert_places [] "SF" [placeX] 0) "SF" "x" = some 0 ∧
      lookupFetched (insert_places (insert_places [] "SF" [placeX] 0) "SF" [placeX] 1)
        "SF" "x" = some 1) ∧
    ((upsert_restaurants (upsert_restaurants [] "SF" [placeX] 0) "SF" [placeX] 1).map stripTime
        = (upsert_restaurants [] "SF" [placeX] 0).map stripTime ∧
      lookupFetched (upsert_restaurants [] "SF" [placeX] 0) "SF" "x" = some 0 ∧
      lookupFetched (upsert_restaurants (upsert_restaurants [] "SF" [placeX] 0) "SF" [placeX] 1)
        "SF" "x" = some 1) ∧
    (∀ u v : ℕ, lookupFetched (insert_places [] "SF" [placeX] 0) "SF" "x" = some u →
      lookupFetched (insert_places (insert_places [] "SF" [placeX] 0) "SF" [placeX] 1)
        "SF" "x" = some v →
      u ≤ v) :=
  upsert_idempotent [] placeX "SF" "x" 0 1 rfl (by omega)

-- ---------- fetch/safe_get lemmas (C1, C2) ----------

lemma safe_get_first (net : ℕ → NetOutcome) (jitter : ℕ → ℚ) (idx : ℕ) (r : GResponse)
    (h : net idx = .ok r) :
    safe_get net jitter idx = .ok (r, idx + 1) := by
  unfold safe_get max_tries
  rw [show List.range 6 = [0, 1, 2, 3, 4, 5] from rfl]
  simp only [safe_get_go, h]

/-- C1 (amended): on a status other than OK, ZERO_RESULTS and UNKNOWN_ERROR
on the first page — including every fatal status such as REQUEST_DENIED —
the plateau crawler's fetch_nearby logs and returns an empty result list
instead of raising, and the crawl loop treats the point as yielding zero new
records and continues; the 1000-per-city crawler's fetch_nearby raises the
RuntimeError that main catches, and its loop likewise moves on to the next
grid point; neither run is ever aborted by a provider status. -/
theorem fatal_status_continues (net : ℕ → NetOutcome) (jitter : ℕ → ℚ) (idx : ℕ)
    (r : GResponse) (h1 : net idx = NetOutcome.ok r) (h2 : r.status ≠ "OK")
    (h3 : r.status ≠ "ZERO_RESULTS") (h4 : r.status ≠ "UNKNOWN_ERROR") :
    fetch_nearby net jitter idx = .ok ([], idx + 1) ∧
    (∀ (city : String) (now : ℕ) (st : RunState), st.idx = idx →
      processPoint net jitter city now st
        = .ok (⟨st.seen, (detStep st.det 0).1, st.store, idx + 1⟩, (detStep st.det 0).2)) ∧
    fetch_nearby_1000 net idx = .error (.api (idx + 1)) ∧
    ∀ (city : String) (now target : ℕ) (pt : ℚ × ℚ) (pts : List (ℚ × ℚ))
      (st : Run1000State), st.idx = idx → ¬ (target ≤ st.seen.card) →
      crawl1000 net city now target (pt :: pts) st
        = crawl1000 net city now target pts ⟨st.seen, st.store, idx + 1, st.visited + 1⟩ := by
  have hs := safe_get_first net jitter idx r h1
  have hfetch : fetch_nearby net jitter idx = .ok ([], idx + 1) := by
    unfold fetch_nearby
    rw [show (3:ℕ) = 2 + 1 from rfl]
    simp only [fetch_loop, hs]
    simp [h2, h3, h4]
  have hf1000 : fetch_nearby_1000 net idx = .error (.api (idx + 1)) := by
    unfold fetch_nearby_1000
    rw [show (3:ℕ) = 2 + 1 from rfl]
    simp only [fetch1000_loop, h1]
    simp [h2, h3]
  refine ⟨hfetch, ?_, hf1000, ?_⟩
  · intro city now st hst
    unfold processPoint
    rw [hst, hfetch]
    simp [dedupLoop]
  · intro city now target pt pts st hst hlt
    simp only [crawl1000, if_neg hlt, hst, hf1000]

/-- Counterexample to C1 as stated: the provider answers point 1 with the
fatal status REQUEST_DENIED, yet the plateau crawl does not abort — it
completes both grid points (points_done = 2) and even harvests the record of
point 2, rather than propagating a failure. -/
theorem fatal_status_counterexample :
    netFatalThenOk 0 = NetOutcome.ok respDenied ∧
    respDenied.status = "REQUEST_DENIED" ∧
    runSummary (crawl_city netFatalThenOk noJitter "SF" 0 [(0, 0), (0, 0)] initRun)
      = some (2, 1) := by
  refine ⟨rfl, rfl, ?_⟩
  decide

/-- Witness for the amended C1 at a concrete fatal response. -/
theorem fatal_status_continues_witness :
    fetch_nearby netFatalThenOk noJitter 0 = .ok ([], 1) ∧
    processPoint netFatalThenOk noJitter "SF" 7 initRun
      = .ok (⟨initRun.seen, (detStep initRun.det 0).1, initRun.store, 1⟩,
          (detStep initRun.det 0).2) ∧
    fetch_nearby_1000 netFatalThenOk 0 = .error (.api 1) ∧
    crawl1000 netFatalThenOk "SF" 7 5 [((0:ℚ), (0:ℚ))] initRun1000
      = crawl1000 netFatalThenOk "SF" 7 5 []
          ⟨initRun1000.seen, initRun1000.store, 1, initRun1000.visited + 1⟩ :=
  ⟨(fatal_status_continues netFatalThenOk noJitter 0 respDenied rfl
      (by decide) (by decide) (by decide)).1,
   (fatal_status_continues netFatalThenOk noJitter 0 respDenied rfl
      (by decide) (by decide) (by decide)).2.1 "SF" 7 initRun rfl,
   (fatal_status_continues netFatalThenOk noJitter 0 respDenied rfl
      (by decide) (by decide) (by decide)).2.2.1,
   (fatal_status_continues netFatalThenOk noJitter 0 respDenied rfl
      (by decide) (by decide) (by decide)).2.2.2 "SF" 7 5 (0, 0) [] initRun1000 rfl
      (by decide)⟩

lemma safe_get_go_ok (net : ℕ → NetOutcome) (jitter : ℕ → ℚ) :
    ∀ (l : List ℕ) (idx k : ℕ) (r : GResponse), k < l.length →
      (∀ i, i < k → net (idx + i) = .netErr) → net (idx + k) = .ok r →
      safe_get_go net jitter l idx
        = (.ok (r, idx + k + 1), (l.take k).map fun i => backoff_sleep i jitter) := by
  intro l
  induction l with
  | nil =>
    intro idx k r hk _ _
    simp at hk
  | cons j rest ih =>
    intro idx k r hk hfail hok
    match k with
    | 0 =>
      rw [Nat.add_zero] at hok
      simp only [safe_get_go, hok]
      simp
    | k+1 =>
      have h0 : net idx = .netErr := by
        have := hfail 0 (by omega)
        rwa [Nat.add_zero] at this
      simp only [safe_get_go, h0]
      have ihr := ih (idx + 1) k r (by simpa using hk)
        (fun i hi => by
          have := hfail (i + 1) (by omega)
          rwa [show idx + (i + 1) = idx + 1 + i from by omega] at this)
        (by rwa [show idx + 1 + k = idx + (k + 1) from by omega])
      rw [ihr, List.take_succ_cons, List.map_cons]
      rw [show idx + (k + 1) + 1 = idx + 1 + k + 1 from by omega]

lemma safe_get_go_fail (net : ℕ → NetOutcome) (jitter : ℕ → ℚ) :
    ∀ (l : List ℕ) (idx : ℕ), (∀ i, i < l.length → net (idx + i) = .netErr) →
      safe_get_go net jitter l idx = (.error (), l.map fun i => backoff_sleep i jitter) := by
  intro l
  induction l with
  | nil => intro idx _; rfl
  | cons j rest ih =>
    intro idx hfail
    have h0 : net idx = .netErr := by
      have := hfail 0 (by simp)
      rwa [Nat.add_zero] at this
    simp only [safe_get_go, h0]
    rw [ih (idx + 1) (fun i hi => by
      have := hfail (i + 1) (by simp; omega)
      rwa [show idx + (i + 1) = idx + 1 + i from by omega] at this)]
    rfl

/-- C2 (amended): safe_get retries a network failure with sleep
min(2 pow i, 30) + jitter for attempt i, up to 6 attempts; if an attempt
succeeds the response is returned and the sleeps are exactly the backoff
schedule of the failed attempts; but when all 6 attempts fail, safe_get
raises RuntimeError, which propagates uncaught through fetch_nearby and the
main loop: the point does not degrade to zero records — the whole run
aborts. -/
theorem network_retry_backoff_abort (net : ℕ → NetOutcome) (jitter : ℕ → ℚ) (idx : ℕ) :
    (∀ (k : ℕ) (r : GResponse), k < max_tries →
      (∀ i, i < k → net (idx + i) = .netErr) → net (idx + k) = .ok r →
      safe_get net jitter idx = .ok (r, idx + k + 1) ∧
      safe_get_sleeps net jitter idx = (List.range k).map fun i => backoff_sleep i jitter) ∧
    ((∀ i, i < max_tries → net (idx + i) = .netErr) →
      safe_get net jitter idx = .error () ∧
      ∀ (city : String) (now : ℕ) (pt : ℚ × ℚ) (pts : List (ℚ × ℚ)) (st : RunState),
        st.idx = idx → crawl_city net jitter city now (pt :: pts) st = .error ()) := by
  constructor
  · intro k r hk hfail hok
    have hgo := safe_get_go_ok net jitter (List.range max_tries) idx k r
      (by simpa using hk) hfail hok
    constructor
    · unfold safe_get
      rw [hgo]
    · unfold safe_get_sleeps
      rw [hgo, List.take_range]
      rw [show k ⊓ max_tries = k from inf_eq_left.mpr (le_of_lt hk)]
  · intro hfail
    have hgo := safe_get_go_fail net jitter (List.range max_tries) idx (by simpa using hfail)
    have hsg : safe_get net jitter idx = .error () := by
      unfold safe_get
      rw [hgo]
    refine ⟨hsg, ?_⟩
    intro city now pt pts st hst
    have hfetch : fetch_nearby net jitter idx = .error () := by
      unfold fetch_nearby
      rw [show (3:ℕ) = 2 + 1 from rfl]
      simp only [fetch_loop, hsg]
    simp only [crawl_city, processPoint, hst, hfetch]

/-- Counterexample to C2 as stated: when the network fails on every attempt
at a point, the plateau run does not continue with the next grid point — the
RuntimeError of safe_get aborts the whole crawl. -/
theorem network_exhaustion_counterexample :
    safe_get netAllFail noJitter 0 = .error () ∧
    crawl_city netAllFail noJitter "SF" 0 [(0, 0), (0, 0)] initRun = .error () :=
  ⟨rfl, rfl⟩

/-- Witness for the amended C2: two failures then success yields the
response after the two scheduled backoff sleeps, and six failures abort a
concrete crawl. -/
theorem network_retry_backoff_abort_witness :
    (safe_get netFailTwice noJitter 0 = .ok (respOkFoo, 0 + 2 + 1) ∧
     safe_get_sleeps netFailTwice noJitter 0
       = (List.range 2).map fun i => backoff_sleep i noJitter) ∧
    (safe_get netAllFail noJitter 5 = .error () ∧
     crawl_city netAllFail noJitter "SF" 3 [(0, 0)] ⟨∅, detInit, [], 5⟩ = .error ()) := by
  refine ⟨(network_retry_backoff_abort netFailTwice noJitter 0).1 2 respOkFoo
    (by decide) (by decide) (by decide), ?_⟩
  have h := (network_retry_backoff_abort netAllFail noJitter 5).2 (by decide)
  exact ⟨h.1, h.2 "SF" 3 (0, 0) [] ⟨∅, detInit, [], 5⟩ rfl⟩

-- ---------- C9: target behaviour of the 1000-per-city script ----------

/-- C9 (amended): in the 1000-per-city crawler the configured target is a
hard stop, not merely a warning: as soon as the seen set has reached the
target, the grid loop breaks immediately — no further grid point is fetched
and the state is returned unchanged. (The post-run warning is additionally
emitted whenever the final row count is below the target; the plateau
crawler has no target at all.) -/
theorem target_hard_stop (net : ℕ → NetOutcome) (city : String) (now target : ℕ)
    (pts : List (ℚ × ℚ)) (st : Run1000State) (h : target ≤ st.seen.card) :
    crawl1000 net city now target pts st = .ok st := by
  cases pts with
  | nil => rfl
  | cons pt rest =>
    unfold crawl1000
    rw [if_pos h]

/-- Counterexample to C9 as stated: with target 3 configured, a 2-point grid
and a provider that returns three fresh places per point, the crawl stops
after visiting only 1 of the 2 grid points — reaching the target halts the
region early even though the grid is not exhausted (and this script has no
plateau detector at all). -/
theorem target_hard_stop_counterexample :
    ([((0:ℚ), (0:ℚ)), ((0:ℚ), (0:ℚ))] : List (ℚ × ℚ)).length = 2 ∧
    run1000Summary (crawl1000 netABC "SF" 0 3 [(0, 0), (0, 0)] initRun1000)
      = some (1, 3) := by
  refine ⟨rfl, ?_⟩
  decide

/-- Witness for the amended C9: a state already at the target is returned
unchanged with the remaining grid unvisited. -/
theorem target_hard_stop_witness :
    crawl1000 netABC "SF" 0 1 [(0, 0)] ⟨{"a"}, [], 4, 0⟩ = .ok ⟨{"a"}, [], 4, 0⟩ :=
  target_hard_stop netABC "SF" 0 1 [(0, 0)] ⟨{"a"}, [], 4, 0⟩ (by decide)

end Claims
